import Mathlib

/-!
Shallow embedding of the CSP Trusted Site form controller
(`CspTrustedSiteForm`, the LWC controller that reconciles the three
catalog trust-policy entries against the snapshot returned by `getCSPs`)
together with the settings-navigation helper of the external-client-app
form.  JavaScript strings are modelled as Lean `String`, JS arrays as
`List`, truthiness of a string as inequality with `""`, and the
promise-based control flow of `handleSubmit` as explicit `Except`-valued
outcome parameters.
-/

namespace CspForm

/-- A provisioned CSP record as returned by the `getCSPs` wire adapter.
The JSDoc typedef declares `IsActive: string`, but the controller uses the
value only through boolean truthiness (`!csp.IsActive`) and a boolean
datatable column, so it is modelled as `Bool`. -/
structure CSP where
  Id : String
  DeveloperName : String
  EndpointUrl : String
  IsActive : Bool
deriving DecidableEq, Repr

/-- The catalog identifier constant `UI_CONNECTOR = "ui_connector"`. -/
def UI_CONNECTOR : String := "ui_connector"

/-- The catalog identifier constant `UI_CONNECTOR_WSS = "ui_connector_wss"`. -/
def UI_CONNECTOR_WSS : String := "ui_connector_wss"

/-- The catalog identifier constant `TWILIO_FLEX = "twilio_flex"`. -/
def TWILIO_FLEX : String := "twilio_flex"

/-- The mutable fields of the `CspTrustedSiteForm` component that the
reconciliation logic reads or writes. -/
structure ComponentState where
  isLoading : Bool
  uiConnector : String
  uiConnectorWss : String
  inactiveTrustedUrlNames : List String
  csps : List CSP
  checkboxGroupValue : List String
  isUIConnectorFieldVisible : Bool
  isUIConnectorWSFieldVisible : Bool
  isTwilioFlexFieldVisible : Bool
  isDataTableVisible : Bool
  isApplyBtnDisabled : Bool
deriving DecidableEq, Repr

/-- The class-field initializers of `CspTrustedSiteForm`. -/
def initialState : ComponentState :=
  { isLoading := false
    uiConnector := ""
    uiConnectorWss := ""
    inactiveTrustedUrlNames := []
    csps := []
    checkboxGroupValue := []
    isUIConnectorFieldVisible := true
    isUIConnectorWSFieldVisible := true
    isTwilioFlexFieldVisible := true
    isDataTableVisible := false
    isApplyBtnDisabled := false }

/-- Accumulator of the `forEach` loop inside `wiredResources`: the
component fields the loop mutates plus the local `initialFields` array. -/
structure WireAcc where
  inactiveNames : List String
  initialFields : List String
  visUC : Bool
  visWSS : Bool
  visTF : Bool
deriving DecidableEq, Repr

/-- One iteration of the `forEach` body in `wiredResources`: push the
record name onto the inactive list when `!csp.IsActive`, then branch on
`csp.DeveloperName` to record the field in `initialFields` and hide the
corresponding input. -/
def wireStep (a : WireAcc) (csp : CSP) : WireAcc :=
  let a1 := if csp.IsActive then a
    else { a with inactiveNames := a.inactiveNames ++ [csp.DeveloperName] }
  if csp.DeveloperName == UI_CONNECTOR then
    { a1 with initialFields := a1.initialFields ++ [UI_CONNECTOR], visUC := false }
  else if csp.DeveloperName == UI_CONNECTOR_WSS then
    { a1 with initialFields := a1.initialFields ++ [UI_CONNECTOR_WSS], visWSS := false }
  else if csp.DeveloperName == TWILIO_FLEX then
    { a1 with initialFields := a1.initialFields ++ [TWILIO_FLEX], visTF := false }
  else a1

/-- The `@wire(getCSPs) wiredResources(result)` handler, on the `data`
side of the emitted result (`data = none` models `data` being `undefined`
or not an array; the `error` side only logs and then falls through to the
same early-return guard, so it leaves the state unchanged and is not a
separate parameter).  When `data` is missing or empty the handler returns
early and every field keeps its previous value; otherwise `this.csps` is
replaced and the `forEach` loop updates the warning list, the visibility
flags and (from the loop-local `initialFields`) the datatable visibility
and apply-button disablement. -/
def wiredResources (s : ComponentState) (data : Option (List CSP)) : ComponentState :=
  match data with
  | none => s
  | some [] => s
  | some csps =>
    let a := csps.foldl wireStep
      { inactiveNames := s.inactiveTrustedUrlNames
        initialFields := []
        visUC := s.isUIConnectorFieldVisible
        visWSS := s.isUIConnectorWSFieldVisible
        visTF := s.isTwilioFlexFieldVisible }
    { s with
      csps := csps
      inactiveTrustedUrlNames := a.inactiveNames
      isUIConnectorFieldVisible := a.visUC
      isUIConnectorWSFieldVisible := a.visWSS
      isTwilioFlexFieldVisible := a.visTF
      isDataTableVisible :=
        [UI_CONNECTOR_WSS, UI_CONNECTOR, TWILIO_FLEX].any
          (fun field => a.initialFields.contains field)
      isApplyBtnDisabled :=
        [UI_CONNECTOR_WSS, UI_CONNECTOR, TWILIO_FLEX].all
          (fun field => a.initialFields.contains field) }

/-- The getter `numberOfInactiveUrls`. -/
def numberOfInactiveUrls (s : ComponentState) : Nat :=
  s.inactiveTrustedUrlNames.length

/-- The getter `inactiveUrlNames` (comma-separated join). -/
def inactiveUrlNames (s : ComponentState) : String :=
  String.intercalate ", " s.inactiveTrustedUrlNames

/-- Whether a catalog id has a matching record in a snapshot
(`record.DeveloperName` equals the id): the classification the spec calls
`present`. -/
def isPresentIn (csps : List CSP) (id : String) : Bool :=
  csps.any (fun csp => csp.DeveloperName == id)

/-- The `dataTableData` getter maps each record to a table row; the
settings deep link embeds `csp.Id.slice(0, -3)` in the fixed path. -/
structure TableRow where
  developerName : String
  endpoint : String
  isActive : Bool
  settingsUrl : String
deriving DecidableEq, Repr

/-- JavaScript `s.slice(0, -k)`: the characters of `s` up to, but not
including, the k-th character from the end (empty when `k` is at least the
length of `s`). -/
def sliceDropLast (s : String) (k : Nat) : String :=
  String.mk (s.data.take (s.data.length - k))

/-- The fixed settings path template of the trust-entry deep link, up to
the embedded truncated record id. -/
def settingsUrlBase : String :=
  "/lightning/setup/SecurityCspTrustedSite/page?address=%2F"

/-- One row of the `dataTableData` getter. -/
def tableRowOf (csp : CSP) : TableRow :=
  { developerName := csp.DeveloperName
    endpoint := csp.EndpointUrl
    isActive := csp.IsActive
    settingsUrl := settingsUrlBase ++ sliceDropLast csp.Id 3 }

/-- The `dataTableData` getter. -/
def dataTableData (s : ComponentState) : List TableRow :=
  s.csps.map tableRowOf

/-- The URL opened by `handleNavigateToEcaSettings` in the
external-client-app form: the ECA record id with `slice(0, -3)` applied,
embedded in the ManageExternalClientApplication settings path. -/
def ecaSettingsUrl (ecaId : String) : String :=
  "/lightning/setup/ManageExternalClientApplication/" ++ sliceDropLast ecaId 3
    ++ "/detail/"

/-- The `body` payload of a rejected remote call, as inspected by the
catch block of `handleSubmit`: an array of `\x7bmessage\x7d` objects, a
non-array object whose `message` is a string, or a non-array body whose
`message` is not a string. -/
inductive ErrBody where
  | arrayOf (msgs : List String)
  | withMessage (m : String)
  | other
deriving DecidableEq, Repr

/-- A rejection value: `body = none` models an error with no `body`
property at all (so that `error.body` evaluates to `undefined`). -/
structure JsError where
  body : Option ErrBody
deriving DecidableEq, Repr

deriving instance DecidableEq for Except

/-- The message computation of the catch block in `handleSubmit`.
`Except.error ()` models the TypeError raised by
`typeof error.body.message` when the error has no `body`: in that case the
catch block itself throws before any toast is shown. -/
def formatErrorMessage (e : JsError) : Except Unit String :=
  match e.body with
  | some (.arrayOf msgs) => Except.ok (String.intercalate ", " msgs)
  | some (.withMessage m) => Except.ok m
  | some .other => Except.ok "Unknown error"
  | none => Except.error ()

/-- `Promise.all` over creation outcomes: resolves when every promise
resolves; rejects with a rejection reason when any promise rejects (the
first in dispatch order, a determinization of settlement order). -/
def promiseAll : List (Except JsError Unit) → Except JsError Unit
  | [] => Except.ok ()
  | Except.ok () :: rest => promiseAll rest
  | Except.error e :: _ => Except.error e

/-- The `(siteUrl, siteName)` argument pairs of the `createTrustedSite`
calls dispatched by `onCreateTrustedUrls`: one per truthy free-text field,
plus the fixed Twilio Flex pair when the checkbox group contains
`TWILIO_FLEX`.  Presence in `this.csps` is not consulted. -/
def trustedUrlRequests (s : ComponentState) : List (String × String) :=
  (if s.uiConnector ≠ "" then [(s.uiConnector, UI_CONNECTOR)] else []) ++
  (if s.uiConnectorWss ≠ "" then [(s.uiConnectorWss, UI_CONNECTOR_WSS)] else []) ++
  (if s.checkboxGroupValue.contains TWILIO_FLEX then
    [("https://flex.twilio.com", TWILIO_FLEX)] else [])

/-- Observable actions of one `handleSubmit` run, in order: dispatch of a
`createTrustedSite` call, dispatch of a toast event (title, message,
optional variant — the validation toast passes no variant), and the
`refreshApex` invocation. -/
inductive Ev where
  | createCall (siteUrl siteName : String)
  | toast (title message : String) (variant : Option String)
  | refreshCall
deriving DecidableEq, Repr

/-- The static validation toast message. -/
def validationMsg : String :=
  "Form cannot be submitted due to errors. Please check your Trusted URL fields and try again."

/-- `onCreateTrustedUrls`: dispatches the built requests and returns the
joint outcome of `Promise.all`, given the outcome of each individual
`createTrustedSite` call. -/
def onCreateTrustedUrls (s : ComponentState)
    (creationResult : String × String → Except JsError Unit) :
    List Ev × Except JsError Unit :=
  let reqs := trustedUrlRequests s
  (reqs.map (fun r => Ev.createCall r.1 r.2), promiseAll (reqs.map creationResult))

/-- `handleSubmit`, parameterized by the environment: whether
`event.target` is an `HTMLFormElement`, the result of
`event.target.checkValidity()`, the outcome of each dispatched
`createTrustedSite` call, and the outcome of `refreshApex`.  Returns the
final component state, the ordered list of observable events, and a flag
that is `true` when an exception escaped the handler (the TypeError raised
inside the catch block on a body-less rejection); the `finally` block sets
`isLoading := false` on every path that entered the `try`. -/
def handleSubmit (s : ComponentState) (targetIsForm valid : Bool)
    (creationResult : String × String → Except JsError Unit)
    (refreshResult : Except JsError Unit) :
    ComponentState × List Ev × Bool :=
  if !targetIsForm then
    (s, [], false)
  else if !valid then
    (s, [Ev.toast "Error" validationMsg none], false)
  else
    let s1 := { s with isLoading := true, isApplyBtnDisabled := true }
    let created := onCreateTrustedUrls s1 creationResult
    match created.2 with
    | Except.error e =>
      match formatErrorMessage e with
      | Except.ok msg =>
        ({ s1 with isApplyBtnDisabled := false, isLoading := false },
          created.1 ++ [Ev.toast "Error" ("Error creating site: " ++ msg) (some "error")],
          false)
      | Except.error _ =>
        ({ s1 with isLoading := false }, created.1, true)
    | Except.ok () =>
      let evs1 := created.1 ++
        [Ev.toast "Success" "Trusted Site created successfully" (some "success"),
          Ev.refreshCall]
      match refreshResult with
      | Except.error e =>
        match formatErrorMessage e with
        | Except.ok msg =>
          ({ s1 with isApplyBtnDisabled := false, isLoading := false },
            evs1 ++ [Ev.toast "Error" ("Error creating site: " ++ msg) (some "error")],
            false)
        | Except.error _ =>
          ({ s1 with isLoading := false }, evs1, true)
      | Except.ok () =>
        ({ s1 with
            uiConnectorWss := ""
            uiConnector := ""
            checkboxGroupValue := []
            isLoading := false },
          evs1, false)

/-- Whether an event is an error-variant toast. -/
def isErrorToast : Ev → Bool
  | Ev.toast _ _ v => v == some "error"
  | _ => false

lemma promiseAll_ok (l : List (Except JsError Unit))
    (h : ∀ x ∈ l, x = Except.ok ()) : promiseAll l = Except.ok () := by
  induction l with
  | nil => rfl
  | cons x t ih =>
    have hx := h x (List.mem_cons_self x t)
    subst hx
    exact ih (fun y hy => h y (List.mem_cons_of_mem _ hy))

lemma formatErrorMessage_isOk (e : JsError) (b : ErrBody) (h : e.body = some b) :
    ∃ m, formatErrorMessage e = Except.ok m := by
  cases b <;> exact ⟨_, by unfold formatErrorMessage; rw [h]⟩

lemma formatErrorMessage_noBody (e : JsError) (h : e.body = none) :
    formatErrorMessage e = Except.error () := by
  unfold formatErrorMessage; rw [h]

lemma trustedUrlRequests_mem (s : ComponentState) (url id : String) :
    (url, id) ∈ trustedUrlRequests s ↔
      (id = UI_CONNECTOR ∧ url = s.uiConnector ∧ s.uiConnector ≠ "") ∨
      (id = UI_CONNECTOR_WSS ∧ url = s.uiConnectorWss ∧ s.uiConnectorWss ≠ "") ∨
      (id = TWILIO_FLEX ∧ url = "https://flex.twilio.com" ∧
        s.checkboxGroupValue.contains TWILIO_FLEX = true) := by
  unfold trustedUrlRequests
  by_cases h1 : s.uiConnector = "" <;> by_cases h2 : s.uiConnectorWss = "" <;>
    by_cases h3 : s.checkboxGroupValue.contains TWILIO_FLEX = true <;>
      simp [h1, h2, h3, Prod.ext_iff] <;> tauto

lemma uc_ne_wss : UI_CONNECTOR ≠ UI_CONNECTOR_WSS := by decide

lemma uc_ne_tf : UI_CONNECTOR ≠ TWILIO_FLEX := by decide

lemma wss_ne_tf : UI_CONNECTOR_WSS ≠ TWILIO_FLEX := by decide

lemma included_uc (s : ComponentState) :
    ((trustedUrlRequests s).any (fun r => r.2 == UI_CONNECTOR) = true) ↔
      s.uiConnector ≠ "" := by
  rw [List.any_eq_true]
  constructor
  · rintro ⟨⟨url, id⟩, hr, hid⟩
    rw [beq_iff_eq] at hid
    subst hid
    rcases (trustedUrlRequests_mem s url _).1 hr with ⟨_, _, h⟩ | ⟨h, _, _⟩ | ⟨h, _, _⟩
    · exact h
    · exact absurd h uc_ne_wss
    · exact absurd h uc_ne_tf
  · intro h
    exact ⟨(s.uiConnector, UI_CONNECTOR),
      (trustedUrlRequests_mem s _ _).2 (Or.inl ⟨rfl, rfl, h⟩), by simp⟩

lemma included_wss (s : ComponentState) :
    ((trustedUrlRequests s).any (fun r => r.2 == UI_CONNECTOR_WSS) = true) ↔
      s.uiConnectorWss ≠ "" := by
  rw [List.any_eq_true]
  constructor
  · rintro ⟨⟨url, id⟩, hr, hid⟩
    rw [beq_iff_eq] at hid
    subst hid
    rcases (trustedUrlRequests_mem s url _).1 hr with ⟨h, _, _⟩ | ⟨_, _, h⟩ | ⟨h, _, _⟩
    · exact absurd h.symm uc_ne_wss
    · exact h
    · exact absurd h wss_ne_tf
  · intro h
    exact ⟨(s.uiConnectorWss, UI_CONNECTOR_WSS),
      (trustedUrlRequests_mem s _ _).2 (Or.inr (Or.inl ⟨rfl, rfl, h⟩)), by simp⟩

lemma included_tf (s : ComponentState) :
    ((trustedUrlRequests s).any (fun r => r.2 == TWILIO_FLEX) = true) ↔
      s.checkboxGroupValue.contains TWILIO_FLEX = true := by
  rw [List.any_eq_true]
  constructor
  · rintro ⟨⟨url, id⟩, hr, hid⟩
    rw [beq_iff_eq] at hid
    subst hid
    rcases (trustedUrlRequests_mem s url _).1 hr with ⟨h, _, _⟩ | ⟨h, _, _⟩ | ⟨_, _, h⟩
    · exact absurd h.symm uc_ne_tf
    · exact absurd h.symm wss_ne_tf
    · exact h
  · intro h
    exact ⟨("https://flex.twilio.com", TWILIO_FLEX),
      (trustedUrlRequests_mem s _ _).2 (Or.inr (Or.inr ⟨rfl, rfl, h⟩)), by simp⟩

lemma trustedUrlRequests_loading (s : ComponentState) :
    trustedUrlRequests { s with isLoading := true, isApplyBtnDisabled := true }
      = trustedUrlRequests s := rfl

lemma handleSubmit_success (s : ComponentState)
    (cr : String × String → Except JsError Unit)
    (h : promiseAll ((trustedUrlRequests s).map cr) = Except.ok ()) :
    handleSubmit s true true cr (Except.ok ()) =
      ({ s with
          isLoading := false
          isApplyBtnDisabled := true
          uiConnector := ""
          uiConnectorWss := ""
          checkboxGroupValue := [] },
        (trustedUrlRequests s).map (fun r => Ev.createCall r.1 r.2) ++
          [Ev.toast "Success" "Trusted Site created successfully" (some "success"),
            Ev.refreshCall],
        false) := by
  unfold handleSubmit onCreateTrustedUrls
  simp only [trustedUrlRequests_loading, h]
  rfl

lemma handleSubmit_createFail (s : ComponentState)
    (cr : String × String → Except JsError Unit) (rf : Except JsError Unit)
    (e : JsError) (m : String)
    (h : promiseAll ((trustedUrlRequests s).map cr) = Except.error e)
    (hm : formatErrorMessage e = Except.ok m) :
    handleSubmit s true true cr rf =
      ({ s with isLoading := false, isApplyBtnDisabled := false },
        (trustedUrlRequests s).map (fun r => Ev.createCall r.1 r.2) ++
          [Ev.toast "Error" ("Error creating site: " ++ m) (some "error")],
        false) := by
  unfold handleSubmit onCreateTrustedUrls
  simp only [trustedUrlRequests_loading, h, hm]
  rfl

lemma handleSubmit_createFail_crash (s : ComponentState)
    (cr : String × String → Except JsError Unit) (rf : Except JsError Unit)
    (e : JsError)
    (h : promiseAll ((trustedUrlRequests s).map cr) = Except.error e)
    (hm : formatErrorMessage e = Except.error ()) :
    handleSubmit s true true cr rf =
      ({ s with isLoading := false, isApplyBtnDisabled := true },
        (trustedUrlRequests s).map (fun r => Ev.createCall r.1 r.2),
        true) := by
  unfold handleSubmit onCreateTrustedUrls
  simp only [trustedUrlRequests_loading, h, hm]
  rfl

lemma handleSubmit_refreshFail (s : ComponentState)
    (cr : String × String → Except JsError Unit) (e : JsError) (m : String)
    (h : promiseAll ((trustedUrlRequests s).map cr) = Except.ok ())
    (hm : formatErrorMessage e = Except.ok m) :
    handleSubmit s true true cr (Except.error e) =
      ({ s with isLoading := false, isApplyBtnDisabled := false },
        (trustedUrlRequests s).map (fun r => Ev.createCall r.1 r.2) ++
          [Ev.toast "Success" "Trusted Site created successfully" (some "success"),
            Ev.refreshCall,
            Ev.toast "Error" ("Error creating site: " ++ m) (some "error")],
        false) := by
  unfold handleSubmit onCreateTrustedUrls
  simp only [trustedUrlRequests_loading, h, hm]
  simp

lemma handleSubmit_refreshFail_crash (s : ComponentState)
    (cr : String × String → Except JsError Unit) (e : JsError)
    (h : promiseAll ((trustedUrlRequests s).map cr) = Except.ok ())
    (hm : formatErrorMessage e = Except.error ()) :
    handleSubmit s true true cr (Except.error e) =
      ({ s with isLoading := false, isApplyBtnDisabled := true },
        (trustedUrlRequests s).map (fun r => Ev.createCall r.1 r.2) ++
          [Ev.toast "Success" "Trusted Site created successfully" (some "success"),
            Ev.refreshCall],
        true) := by
  unfold handleSubmit onCreateTrustedUrls
  simp only [trustedUrlRequests_loading, h, hm]
  rfl

lemma refreshCall_not_mem_createEvents (l : List (String × String)) :
    Ev.refreshCall ∉ l.map (fun r => Ev.createCall r.1 r.2) := by
  simp [List.mem_map]

lemma countP_isErrorToast_createEvents (l : List (String × String)) :
    (l.map (fun r => Ev.createCall r.1 r.2)).countP isErrorToast = 0 := by
  induction l with
  | nil => rfl
  | cons x t ih => simp [List.countP_cons, isErrorToast, ih]

lemma wireStep_inactiveNames (a : WireAcc) (csp : CSP) :
    (wireStep a csp).inactiveNames =
      a.inactiveNames ++ (if csp.IsActive then [] else [csp.DeveloperName]) := by
  unfold wireStep
  split_ifs <;> simp

/-- The Boolean catalog-membership test on a record name: whether the
`forEach` if-chain in `wiredResources` pushes the name onto
`initialFields`. -/
def isCatalogName (n : String) : Bool :=
  n == UI_CONNECTOR || n == UI_CONNECTOR_WSS || n == TWILIO_FLEX

lemma wireStep_initialFields (a : WireAcc) (csp : CSP) :
    (wireStep a csp).initialFields =
      a.initialFields ++
        (if isCatalogName csp.DeveloperName then [csp.DeveloperName] else []) := by
  unfold wireStep isCatalogName
  split_ifs with h1 h2 h3 h4 h5 h6 h7 <;> simp_all [beq_iff_eq]

lemma wireStep_visUC (a : WireAcc) (csp : CSP) :
    (wireStep a csp).visUC = (a.visUC && !(csp.DeveloperName == UI_CONNECTOR)) := by
  unfold wireStep
  split_ifs with h1 h2 h3 h4 h5 h6 h7 <;>
    simp_all [uc_ne_wss, uc_ne_tf, wss_ne_tf]

lemma wireStep_visWSS (a : WireAcc) (csp : CSP) :
    (wireStep a csp).visWSS = (a.visWSS && !(csp.DeveloperName == UI_CONNECTOR_WSS)) := by
  unfold wireStep
  split_ifs with h1 h2 h3 h4 h5 h6 h7 <;>
    simp_all [uc_ne_wss, uc_ne_tf, wss_ne_tf]

lemma wireStep_visTF (a : WireAcc) (csp : CSP) :
    (wireStep a csp).visTF = (a.visTF && !(csp.DeveloperName == TWILIO_FLEX)) := by
  unfold wireStep
  split_ifs with h1 h2 h3 h4 h5 h6 h7 <;>
    simp_all [uc_ne_wss, uc_ne_tf, wss_ne_tf]

lemma foldl_wireStep_inactiveNames (csps : List CSP) (a : WireAcc) :
    (csps.foldl wireStep a).inactiveNames =
      a.inactiveNames ++
        (csps.filter (fun c => !c.IsActive)).map (fun c => c.DeveloperName) := by
  induction csps generalizing a with
  | nil => simp
  | cons c t ih =>
    rw [List.foldl_cons, ih, wireStep_inactiveNames, List.filter_cons]
    cases hc : c.IsActive <;> simp [hc]

lemma foldl_wireStep_visUC (csps : List CSP) (a : WireAcc) :
    (csps.foldl wireStep a).visUC =
      (a.visUC && !(csps.any (fun c => c.DeveloperName == UI_CONNECTOR))) := by
  induction csps generalizing a with
  | nil => simp
  | cons c t ih =>
    rw [List.foldl_cons, ih, wireStep_visUC]
    simp [Bool.and_assoc]

lemma foldl_wireStep_visWSS (csps : List CSP) (a : WireAcc) :
    (csps.foldl wireStep a).visWSS =
      (a.visWSS && !(csps.any (fun c => c.DeveloperName == UI_CONNECTOR_WSS))) := by
  induction csps generalizing a with
  | nil => simp
  | cons c t ih =>
    rw [List.foldl_cons, ih, wireStep_visWSS]
    simp [Bool.and_assoc]

lemma foldl_wireStep_visTF (csps : List CSP) (a : WireAcc) :
    (csps.foldl wireStep a).visTF =
      (a.visTF && !(csps.any (fun c => c.DeveloperName == TWILIO_FLEX))) := by
  induction csps generalizing a with
  | nil => simp
  | cons c t ih =>
    rw [List.foldl_cons, ih, wireStep_visTF]
    simp [Bool.and_assoc]

lemma foldl_wireStep_initialFields (csps : List CSP) (a : WireAcc) :
    (csps.foldl wireStep a).initialFields =
      a.initialFields ++
        (csps.filter (fun c => isCatalogName c.DeveloperName)).map
          (fun c => c.DeveloperName) := by
  induction csps generalizing a with
  | nil => simp
  | cons c t ih =>
    rw [List.foldl_cons, ih, wireStep_initialFields, List.filter_cons]
    by_cases hcat : isCatalogName c.DeveloperName = true
    · rw [if_pos hcat, if_pos hcat]
      simp [List.append_assoc]
    · rw [if_neg hcat, if_neg hcat]
      simp

lemma catalogNames_contains (csps : List CSP) (id : String)
    (hid : id = UI_CONNECTOR ∨ id = UI_CONNECTOR_WSS ∨ id = TWILIO_FLEX) :
    (((csps.filter (fun c => isCatalogName c.DeveloperName)).map
        (fun c => c.DeveloperName)).contains id)
      = csps.any (fun c => c.DeveloperName == id) := by
  rw [Bool.eq_iff_iff]
  simp only [List.elem_iff, List.any_eq_true, List.mem_map, List.mem_filter,
    beq_iff_eq]
  constructor
  · rintro ⟨c, ⟨hc, _⟩, hdev⟩
    exact ⟨c, hc, hdev⟩
  · rintro ⟨c, hc, hdev⟩
    refine ⟨c, ⟨hc, ?_⟩, hdev⟩
    unfold isCatalogName
    rcases hid with rfl | rfl | rfl <;> simp [hdev]

/-- Claim C1, counterexample: a component state whose snapshot contains a
`ui_connector` record (so the catalog id is classified present) while the
`uiConnector` free-text value is non-empty; `onCreateTrustedUrls` still
builds a `createTrustedSite` request for that id, because the request list
is derived from the field values alone. -/
theorem c1_present_entry_still_dispatched :
    let s : ComponentState :=
      { initialState with
          uiConnector := "https://example.com"
          csps := [⟨"recA", UI_CONNECTOR, "https://example.com", true⟩] }
    isPresentIn s.csps UI_CONNECTOR = true ∧
    ("https://example.com", UI_CONNECTOR) ∈ trustedUrlRequests s ∧
    (trustedUrlRequests s).any (fun r => r.2 == UI_CONNECTOR) = true := by
  decide

/-- Claim C1, amended: the request list built by `onCreateTrustedUrls` is
characterized by the form input state alone — a `(siteUrl, siteName)`
creation request is dispatched exactly when the corresponding free-text
value is non-empty (or, for the default-URL entry, the checkbox group
contains `twilio_flex`); whether the catalog id is present in the snapshot
is not consulted. -/
theorem c1_requests_determined_by_form_input (s : ComponentState)
    (url id : String) :
    (url, id) ∈ trustedUrlRequests s ↔
      (id = UI_CONNECTOR ∧ url = s.uiConnector ∧ s.uiConnector ≠ "") ∨
      (id = UI_CONNECTOR_WSS ∧ url = s.uiConnectorWss ∧ s.uiConnectorWss ≠ "") ∨
      (id = TWILIO_FLEX ∧ url = "https://flex.twilio.com" ∧
        s.checkboxGroupValue.contains TWILIO_FLEX = true) :=
  trustedUrlRequests_mem s url id

/-- Claim C3: processing the same non-empty snapshot twice through
`wiredResources` does not yield the state of processing it once — the
inactive-name list is pushed onto without ever being cleared, so the
inactive count accumulates across invocations (here 1 after one pass, 2
after two passes over an unchanged snapshot). -/
theorem c3_second_pass_accumulates_inactive :
    let d : Option (List CSP) := some [⟨"recA", UI_CONNECTOR, "https://u", false⟩]
    numberOfInactiveUrls (wiredResources initialState d) = 1 ∧
    numberOfInactiveUrls (wiredResources (wiredResources initialState d) d) = 2 ∧
    (wiredResources (wiredResources initialState d) d).inactiveTrustedUrlNames
      = [UI_CONNECTOR, UI_CONNECTOR] ∧
    wiredResources (wiredResources initialState d) d
      ≠ wiredResources initialState d := by
  decide

/-- Claim C4, counterexample: a snapshot whose only record is inactive and
matches no catalog entry still contributes its name to the inactive list
(count 1, not 0), so the inactive set is not contained in the set of
present catalog ids; and two inactive records for the same catalog id are
counted twice, not once. -/
theorem c4_inactive_not_subset_present :
    ((wiredResources initialState
        (some [⟨"recA", "foo", "https://x", false⟩])).inactiveTrustedUrlNames
      = ["foo"]) ∧
    numberOfInactiveUrls
      (wiredResources initialState (some [⟨"recA", "foo", "https://x", false⟩])) = 1 ∧
    isPresentIn [CSP.mk "recA" "foo" "https://x" false] UI_CONNECTOR = false ∧
    isPresentIn [CSP.mk "recA" "foo" "https://x" false] UI_CONNECTOR_WSS = false ∧
    isPresentIn [CSP.mk "recA" "foo" "https://x" false] TWILIO_FLEX = false ∧
    ¬("foo" = UI_CONNECTOR ∨ "foo" = UI_CONNECTOR_WSS ∨ "foo" = TWILIO_FLEX) ∧
    numberOfInactiveUrls
      (wiredResources initialState
        (some [⟨"r1", UI_CONNECTOR, "https://u", false⟩,
               ⟨"r2", UI_CONNECTOR, "https://u", false⟩])) = 2 := by
  decide

/-- Claim C4, amended: after processing a snapshot from the initial
component state, the inactive-name list is exactly the `DeveloperName` of
every record with `IsActive = false`, in snapshot order — one entry per
inactive record, including records whose name matches no catalog entry and
including one entry per duplicate matching record; containment of the
inactive names in the present catalog ids therefore does not hold in
general. -/
theorem c4_inactive_names_are_all_inactive_records (csps : List CSP) :
    (wiredResources initialState (some csps)).inactiveTrustedUrlNames
      = (csps.filter (fun c => !c.IsActive)).map (fun c => c.DeveloperName) := by
  cases csps with
  | nil => rfl
  | cons c t =>
    simp only [wiredResources, initialState]
    rw [foldl_wireStep_inactiveNames]
    simp

/-- Claim C5, counterexample: the field-visibility flags are hidden
monotonically and never recomputed from scratch, so the per-snapshot
characterization fails across a sequence of snapshots — after processing a
snapshot containing only `ui_connector` and then one containing only
`twilio_flex`, the `ui_connector` field is still hidden although its id is
absent from the second snapshot (and the second snapshot alone would leave
it visible). -/
theorem c5_visibility_not_per_snapshot :
    let s1 := wiredResources initialState
      (some [⟨"recA", UI_CONNECTOR, "https://u", true⟩])
    let s2 := wiredResources s1 (some [⟨"recB", TWILIO_FLEX, "https://v", true⟩])
    s2.isUIConnectorFieldVisible = false ∧
    isPresentIn s2.csps UI_CONNECTOR = false := by
  decide

/-- Claim C5, amended: when a snapshot is processed from the initial
component state (in particular on the first wire emission), each catalog
entry input field is visible exactly when its id has no matching record in
that snapshot, the data table is visible exactly when at least one of the
three catalog ids is present, and the apply button is disabled exactly
when all three are present; an empty snapshot takes the early return and
leaves the initial all-visible, enabled, table-hidden state.  Across later
snapshots the flags are only ever hidden monotonically
(`c5_visibility_not_per_snapshot`). -/
theorem c5_view_state_from_initial (csps : List CSP) :
    (wiredResources initialState (some csps)).isUIConnectorFieldVisible
        = !(isPresentIn csps UI_CONNECTOR) ∧
    (wiredResources initialState (some csps)).isUIConnectorWSFieldVisible
        = !(isPresentIn csps UI_CONNECTOR_WSS) ∧
    (wiredResources initialState (some csps)).isTwilioFlexFieldVisible
        = !(isPresentIn csps TWILIO_FLEX) ∧
    (wiredResources initialState (some csps)).isDataTableVisible
        = (isPresentIn csps UI_CONNECTOR_WSS || isPresentIn csps UI_CONNECTOR
            || isPresentIn csps TWILIO_FLEX) ∧
    (wiredResources initialState (some csps)).isApplyBtnDisabled
        = (isPresentIn csps UI_CONNECTOR_WSS && isPresentIn csps UI_CONNECTOR
            && isPresentIn csps TWILIO_FLEX) := by
  cases csps with
  | nil => decide
  | cons c t =>
    simp only [wiredResources, initialState]
    refine ⟨?_, ?_, ?_, ?_, ?_⟩
    · rw [foldl_wireStep_visUC]
      simp [isPresentIn]
    · rw [foldl_wireStep_visWSS]
      simp [isPresentIn]
    · rw [foldl_wireStep_visTF]
      simp [isPresentIn]
    · simp only [List.any_cons, List.any_nil]
      rw [foldl_wireStep_initialFields]
      simp only [List.nil_append]
      rw [catalogNames_contains _ _ (Or.inr (Or.inl rfl)),
        catalogNames_contains _ _ (Or.inl rfl),
        catalogNames_contains _ _ (Or.inr (Or.inr rfl))]
      simp [isPresentIn, Bool.or_assoc]
    · simp only [List.all_cons, List.all_nil]
      rw [foldl_wireStep_initialFields]
      simp only [List.nil_append]
      rw [catalogNames_contains _ _ (Or.inr (Or.inl rfl)),
        catalogNames_contains _ _ (Or.inl rfl),
        catalogNames_contains _ _ (Or.inr (Or.inr rfl))]
      simp [isPresentIn, Bool.and_assoc]

/-- Claim C2: on a fully successful submission (form target valid,
validation passing, every dispatched creation call resolving, and the
refetch resolving), each free-text entry that was included in the
dispatched request list is reset to its initial empty value, the checkbox
selection is reset to unselected when the default-URL entry was included,
and every entry that was not included keeps its current value (the
checkbox group can only hold the single offered option, see `options` in
the source, hence the reachability hypothesis on `checkboxGroupValue`). -/
theorem c2_success_resets_exactly_submitted (s : ComponentState)
    (cr : String × String → Except JsError Unit)
    (hcb : s.checkboxGroupValue = [] ∨ s.checkboxGroupValue = [TWILIO_FLEX])
    (hok : ∀ r ∈ trustedUrlRequests s, cr r = Except.ok ()) :
    ((trustedUrlRequests s).any (fun r => r.2 == UI_CONNECTOR) = true →
      (handleSubmit s true true cr (Except.ok ())).1.uiConnector = "") ∧
    ((trustedUrlRequests s).any (fun r => r.2 == UI_CONNECTOR) = false →
      (handleSubmit s true true cr (Except.ok ())).1.uiConnector = s.uiConnector) ∧
    ((trustedUrlRequests s).any (fun r => r.2 == UI_CONNECTOR_WSS) = true →
      (handleSubmit s true true cr (Except.ok ())).1.uiConnectorWss = "") ∧
    ((trustedUrlRequests s).any (fun r => r.2 == UI_CONNECTOR_WSS) = false →
      (handleSubmit s true true cr (Except.ok ())).1.uiConnectorWss = s.uiConnectorWss) ∧
    ((trustedUrlRequests s).any (fun r => r.2 == TWILIO_FLEX) = true →
      (handleSubmit s true true cr (Except.ok ())).1.checkboxGroupValue = []) ∧
    ((trustedUrlRequests s).any (fun r => r.2 == TWILIO_FLEX) = false →
      (handleSubmit s true true cr (Except.ok ())).1.checkboxGroupValue
        = s.checkboxGroupValue) ∧
    (handleSubmit s true true cr (Except.ok ())).2.1
      = (trustedUrlRequests s).map (fun r => Ev.createCall r.1 r.2) ++
          [Ev.toast "Success" "Trusted Site created successfully" (some "success"),
            Ev.refreshCall] := by
  have hall : promiseAll ((trustedUrlRequests s).map cr) = Except.ok () := by
    refine promiseAll_ok _ ?_
    intro x hx
    obtain ⟨r, hr, rfl⟩ := List.mem_map.1 hx
    exact hok r hr
  rw [handleSubmit_success s cr hall]
  refine ⟨fun _ => rfl, ?_, fun _ => rfl, ?_, fun _ => rfl, ?_, rfl⟩
  · intro hni
    have hempty : ¬s.uiConnector ≠ "" := fun hne =>
      by rw [(included_uc s).2 hne] at hni; cases hni
    have : s.uiConnector = "" := not_not.1 hempty
    rw [this]
  · intro hni
    have hempty : ¬s.uiConnectorWss ≠ "" := fun hne =>
      by rw [(included_wss s).2 hne] at hni; cases hni
    have : s.uiConnectorWss = "" := not_not.1 hempty
    rw [this]
  · intro hni
    have hnc : ¬s.checkboxGroupValue.contains TWILIO_FLEX = true := fun hc =>
      by rw [(included_tf s).2 hc] at hni; cases hni
    rcases hcb with h | h
    · rw [h]
    · exact absurd (by rw [h]; decide) hnc

/-- Witness for `c2_success_resets_exactly_submitted` at a concrete state
that submits the `ui_connector` free-text value and the checkbox entry. -/
theorem c2_success_resets_witness :
    (({ initialState with
          uiConnector := "https://a"
          checkboxGroupValue := [TWILIO_FLEX] } : ComponentState).checkboxGroupValue
        = [] ∨
      ({ initialState with
          uiConnector := "https://a"
          checkboxGroupValue := [TWILIO_FLEX] } : ComponentState).checkboxGroupValue
        = [TWILIO_FLEX]) ∧
    (∀ r ∈ trustedUrlRequests
        { initialState with
            uiConnector := "https://a"
            checkboxGroupValue := [TWILIO_FLEX] },
      (fun (_ : String × String) => (Except.ok () : Except JsError Unit)) r
        = Except.ok ()) ∧
    ((trustedUrlRequests
        { initialState with
            uiConnector := "https://a"
            checkboxGroupValue := [TWILIO_FLEX] }).any
          (fun r => r.2 == UI_CONNECTOR) = true →
      (handleSubmit
          { initialState with
              uiConnector := "https://a"
              checkboxGroupValue := [TWILIO_FLEX] } true true
          (fun _ => Except.ok ()) (Except.ok ())).1.uiConnector = "") := by
  refine ⟨Or.inr rfl, by decide, ?_⟩
  exact (c2_success_resets_exactly_submitted
    { initialState with
        uiConnector := "https://a"
        checkboxGroupValue := [TWILIO_FLEX] }
    (fun _ => Except.ok ()) (Or.inr rfl) (by decide)).1

/-- Claim C6, counterexample: a creation call rejecting with an error that
has no body leaves the catch block throwing a TypeError before the toast
line, so no aggregated error notification is dispatched (the claim as
stated promises one for every failing submission). -/
theorem c6_bodyless_failure_shows_no_toast :
    let s : ComponentState := { initialState with uiConnector := "https://a" }
    let out := handleSubmit s true true
      (fun _ => Except.error { body := none }) (Except.ok ())
    out.2.1 = [Ev.createCall "https://a" UI_CONNECTOR] ∧
    out.2.1.countP isErrorToast = 0 ∧
    out.2.2 = true ∧
    out.1.uiConnector = "https://a" := by
  decide

/-- Claim C6, amended: when any creation request fails, the submission is
atomic with respect to local state — the free-text values and the checkbox
selection are unchanged and `refreshApex` is never invoked — and exactly
one aggregated error notification is shown provided the rejection carries
a `body` (a body-less rejection instead raises a TypeError inside the
catch block and no notification fires,
`c6_bodyless_failure_shows_no_toast`). -/
theorem c6_failure_atomic (s : ComponentState)
    (cr : String × String → Except JsError Unit) (rf : Except JsError Unit)
    (e : JsError)
    (hfail : promiseAll ((trustedUrlRequests s).map cr) = Except.error e) :
    (handleSubmit s true true cr rf).1.uiConnector = s.uiConnector ∧
    (handleSubmit s true true cr rf).1.uiConnectorWss = s.uiConnectorWss ∧
    (handleSubmit s true true cr rf).1.checkboxGroupValue = s.checkboxGroupValue ∧
    Ev.refreshCall ∉ (handleSubmit s true true cr rf).2.1 ∧
    (∀ b, e.body = some b →
      ((handleSubmit s true true cr rf).2.1.countP isErrorToast) = 1) := by
  cases hb : e.body with
  | none =>
    rw [handleSubmit_createFail_crash s cr rf e hfail (formatErrorMessage_noBody e hb)]
    refine ⟨rfl, rfl, rfl, refreshCall_not_mem_createEvents _, ?_⟩
    intro b hbb
    exact Option.noConfusion hbb
  | some b0 =>
    obtain ⟨m, hm⟩ := formatErrorMessage_isOk e b0 hb
    rw [handleSubmit_createFail s cr rf e m hfail hm]
    refine ⟨rfl, rfl, rfl, ?_, ?_⟩
    · simp [List.mem_append, List.mem_map]
    · intro b hbb
      rw [List.countP_append, countP_isErrorToast_createEvents]
      rfl

/-- Witness for `c6_failure_atomic` at a concrete state whose single
creation call rejects with a structured array body. -/
theorem c6_failure_atomic_witness :
    (promiseAll ((trustedUrlRequests
        { initialState with uiConnector := "https://a" }).map
          (fun _ => Except.error { body := some (ErrBody.arrayOf ["duplicate"]) }))
      = Except.error { body := some (ErrBody.arrayOf ["duplicate"]) }) ∧
    ((handleSubmit { initialState with uiConnector := "https://a" } true true
        (fun _ => Except.error { body := some (ErrBody.arrayOf ["duplicate"]) })
        (Except.ok ())).1.uiConnector
      = ({ initialState with uiConnector := "https://a" } : ComponentState).uiConnector) ∧
    Ev.refreshCall ∉ (handleSubmit { initialState with uiConnector := "https://a" }
        true true
        (fun _ => Except.error { body := some (ErrBody.arrayOf ["duplicate"]) })
        (Except.ok ())).2.1 := by
  refine ⟨by decide, ?_, ?_⟩
  · exact (c6_failure_atomic { initialState with uiConnector := "https://a" }
      (fun _ => Except.error { body := some (ErrBody.arrayOf ["duplicate"]) })
      (Except.ok ()) { body := some (ErrBody.arrayOf ["duplicate"]) } (by decide)).1
  · exact (c6_failure_atomic { initialState with uiConnector := "https://a" }
      (fun _ => Except.error { body := some (ErrBody.arrayOf ["duplicate"]) })
      (Except.ok ()) { body := some (ErrBody.arrayOf ["duplicate"]) }
      (by decide)).2.2.2.1

/-- Claim C7: the catch block computes the comma-joined array messages,
else the body message string, else the fallback, but an error that carries
no `body` at all makes `typeof error.body.message` itself throw — the
rejection escapes `handleSubmit` uncaught and no notification (not even
the fallback) is shown, contradicting the total-conversion claim. -/
theorem c7_bodyless_rejection_escapes :
    formatErrorMessage { body := none } = Except.error () ∧
    (let s : ComponentState := { initialState with uiConnectorWss := "wss://b" }
     let out := handleSubmit s true true
       (fun _ => Except.error { body := none }) (Except.ok ())
     out.2.2 = true ∧
     out.2.1 = [Ev.createCall "wss://b" UI_CONNECTOR_WSS] ∧
     out.2.1.countP isErrorToast = 0) ∧
    formatErrorMessage { body := some (ErrBody.arrayOf ["m1", "m2"]) }
      = Except.ok "m1, m2" ∧
    formatErrorMessage { body := some (ErrBody.withMessage "boom") }
      = Except.ok "boom" ∧
    formatErrorMessage { body := some ErrBody.other }
      = Except.ok "Unknown error" := by
  decide

/-- Claim C8: when client-side validation fails, `handleSubmit` dispatches
exactly one toast carrying the static validation copy, issues no
`createTrustedSite` call and no refetch, leaves the component state
untouched, and nothing escapes — independently of the creation and refresh
outcome parameters, which are never consulted. -/
theorem c8_validation_failure_no_dispatch (s : ComponentState)
    (cr : String × String → Except JsError Unit) (rf : Except JsError Unit) :
    handleSubmit s true false cr rf
      = (s, [Ev.toast "Error" validationMsg none], false) := rfl

/-- Claim C9: for any record whose identifier has at least 3 characters,
the datatable settings deep link is the fixed trust-entry settings path
with the identifier truncated by exactly its last 3 characters, and the
external-client-app settings URL applies the same 3-character truncation
inside its own fixed path. -/
theorem c9_settings_links_truncate_three (csp : CSP) (ecaId : String)
    (h3 : 3 ≤ csp.Id.data.length) (he : 3 ≤ ecaId.data.length) :
    ∃ suffix suffix2 : List Char,
      suffix.length = 3 ∧
      csp.Id.data = (sliceDropLast csp.Id 3).data ++ suffix ∧
      (tableRowOf csp).settingsUrl = settingsUrlBase ++ sliceDropLast csp.Id 3 ∧
      dataTableData { initialState with csps := [csp] } = [tableRowOf csp] ∧
      suffix2.length = 3 ∧
      ecaId.data = (sliceDropLast ecaId 3).data ++ suffix2 ∧
      ecaSettingsUrl ecaId
        = "/lightning/setup/ManageExternalClientApplication/"
            ++ sliceDropLast ecaId 3 ++ "/detail/" := by
  refine ⟨csp.Id.data.drop (csp.Id.data.length - 3),
    ecaId.data.drop (ecaId.data.length - 3), ?_, ?_, rfl, rfl, ?_, ?_, rfl⟩
  · rw [List.length_drop]
    omega
  · exact (List.take_append_drop _ _).symm
  · rw [List.length_drop]
    omega
  · exact (List.take_append_drop _ _).symm

/-- Witness for `c9_settings_links_truncate_three` at a concrete 18-character
record id and ECA id. -/
theorem c9_settings_links_witness :
    3 ≤ (CSP.mk "0CP000000000001AQa" UI_CONNECTOR "https://u" true).Id.data.length ∧
    3 ≤ ("0H4000000000002BBb" : String).data.length ∧
    (∃ suffix suffix2 : List Char,
      suffix.length = 3 ∧
      (CSP.mk "0CP000000000001AQa" UI_CONNECTOR "https://u" true).Id.data
        = (sliceDropLast
            (CSP.mk "0CP000000000001AQa" UI_CONNECTOR "https://u" true).Id 3).data
          ++ suffix ∧
      (tableRowOf (CSP.mk "0CP000000000001AQa" UI_CONNECTOR "https://u" true)).settingsUrl
        = settingsUrlBase ++
            sliceDropLast
              (CSP.mk "0CP000000000001AQa" UI_CONNECTOR "https://u" true).Id 3 ∧
      dataTableData
          { initialState with
              csps := [CSP.mk "0CP000000000001AQa" UI_CONNECTOR "https://u" true] }
        = [tableRowOf (CSP.mk "0CP000000000001AQa" UI_CONNECTOR "https://u" true)] ∧
      suffix2.length = 3 ∧
      ("0H4000000000002BBb" : String).data
        = (sliceDropLast "0H4000000000002BBb" 3).data ++ suffix2 ∧
      ecaSettingsUrl "0H4000000000002BBb"
        = "/lightning/setup/ManageExternalClientApplication/"
            ++ sliceDropLast "0H4000000000002BBb" 3 ++ "/detail/") := by
  refine ⟨by decide, by decide, ?_⟩
  exact c9_settings_links_truncate_three
    (CSP.mk "0CP000000000001AQa" UI_CONNECTOR "https://u" true)
    "0H4000000000002BBb" (by decide) (by decide)

/-- Claim C10, counterexample: when every creation call succeeds but
`refreshApex` rejects with a body-less error, the success toast and the
refetch have already happened, yet no error notification fires — the catch
block throws a TypeError instead — refuting the claim that an error
notification fires whenever the refetch rejects. -/
theorem c10_bodyless_refresh_no_error_toast :
    let s : ComponentState := { initialState with uiConnector := "https://a" }
    let out := handleSubmit s true true (fun _ => Except.ok ())
      (Except.error { body := none })
    out.2.1 = [Ev.createCall "https://a" UI_CONNECTOR,
      Ev.toast "Success" "Trusted Site created successfully" (some "success"),
      Ev.refreshCall] ∧
    out.2.1.countP isErrorToast = 0 ∧
    out.2.2 = true := by
  decide

/-- Claim C10, amended: when every creation call succeeds but the refetch
rejects, the success notification has already been dispatched before the
`refreshApex` invocation (both precede everything else in the event
trace), the form input values are not reset, and an error notification
from the same submission follows whenever the rejection carries a `body`
(a body-less rejection instead escapes as a TypeError after the success
toast, `c10_bodyless_refresh_no_error_toast`). -/
theorem c10_refresh_failure_after_success (s : ComponentState)
    (cr : String × String → Except JsError Unit) (e : JsError)
    (hok : ∀ r ∈ trustedUrlRequests s, cr r = Except.ok ()) :
    (handleSubmit s true true cr (Except.error e)).1.uiConnector = s.uiConnector ∧
    (handleSubmit s true true cr (Except.error e)).1.uiConnectorWss
      = s.uiConnectorWss ∧
    (handleSubmit s true true cr (Except.error e)).1.checkboxGroupValue
      = s.checkboxGroupValue ∧
    (∃ rest,
      (handleSubmit s true true cr (Except.error e)).2.1 =
        (trustedUrlRequests s).map (fun r => Ev.createCall r.1 r.2) ++
          [Ev.toast "Success" "Trusted Site created successfully" (some "success"),
            Ev.refreshCall] ++ rest ∧
      (∀ b, e.body = some b →
        ∃ m, formatErrorMessage e = Except.ok m ∧
          rest = [Ev.toast "Error" ("Error creating site: " ++ m) (some "error")])) := by
  have hall : promiseAll ((trustedUrlRequests s).map cr) = Except.ok () := by
    refine promiseAll_ok _ ?_
    intro x hx
    obtain ⟨r, hr, rfl⟩ := List.mem_map.1 hx
    exact hok r hr
  cases hb : e.body with
  | none =>
    rw [handleSubmit_refreshFail_crash s cr e hall (formatErrorMessage_noBody e hb)]
    refine ⟨rfl, rfl, rfl, [], by simp, ?_⟩
    intro b hbb
    exact Option.noConfusion hbb
  | some b0 =>
    obtain ⟨m, hm⟩ := formatErrorMessage_isOk e b0 hb
    rw [handleSubmit_refreshFail s cr e m hall hm]
    refine ⟨rfl, rfl, rfl,
      [Ev.toast "Error" ("Error creating site: " ++ m) (some "error")], ?_, ?_⟩
    · simp
    · intro b hbb
      exact ⟨m, hm, rfl⟩

/-- Witness for `c10_refresh_failure_after_success` at a concrete state
with one creation call and a refresh rejection carrying a string body. -/
theorem c10_refresh_failure_witness :
    (∀ r ∈ trustedUrlRequests { initialState with uiConnector := "https://a" },
      (fun (_ : String × String) => (Except.ok () : Except JsError Unit)) r
        = Except.ok ()) ∧
    (handleSubmit { initialState with uiConnector := "https://a" } true true
        (fun _ => Except.ok ())
        (Except.error { body := some (ErrBody.withMessage "boom") })).1.uiConnector
      = ({ initialState with uiConnector := "https://a" } : ComponentState).uiConnector := by
  refine ⟨by decide, ?_⟩
  exact (c10_refresh_failure_after_success
    { initialState with uiConnector := "https://a" }
    (fun _ => Except.ok ()) { body := some (ErrBody.withMessage "boom") }
    (by decide)).1

end CspForm

